import Mathlib

/-!
Verification of the "Dashboard de Chamados" reporting pipeline (src/dados.py).

The script loads a CSV of service tickets, filters it by a date range and two
category selections (sector, status), computes four scalar metrics, four
aggregated views, a CSV export of the filtered subset, and a detail table.

We embed the pipeline shallowly: a ticket table is a `List Ticket`, dates are
calendar dates at date precision (the data model of the pipeline), CSV cells
are modelled at field-semantics granularity (a cell carries the typed value
its text denotes), and pandas operations become explicit list functions:
`filter` for boolean-mask row selection, `dedup` for the set of distinct
values, insertion sort for the key-sorting that `groupby`, `sorted(unique())`
and `mode()` perform. String labels are kept exactly as the source writes
them ("Resolvido", "Aberto", ...); the spec refers to the same values by
their English translations ("Resolved", "Open").
-/

namespace Chamados

/-- A calendar date (date precision, as in the data model of the pipeline). -/
structure Date where
  year : Nat
  month : Nat
  day : Nat
deriving DecidableEq, Repr

/-- Chronological comparison of dates, lexicographic on year, month, day.
Mirrors the comparison pandas performs on the `data` column in the filter
(lines 65-66 of src/dados.py). -/
def Date.leB (a b : Date) : Bool :=
  decide (a.year < b.year ∨ (a.year = b.year ∧
    (a.month < b.month ∨ (a.month = b.month ∧ a.day ≤ b.day))))

/-- One row of `chamados.csv`: columns ID, setor, data, status,
tempo_resolucao (lines 18-24 of src/dados.py). -/
structure Ticket where
  id : Nat
  setor : String
  data : Date
  status : String
  tempo_resolucao : Nat
deriving DecidableEq, Repr

/-- The sidebar filter inputs: the selected period (two dates, both ends
inclusive) and the multiselect selections for sector and status
(lines 44-59 of src/dados.py). -/
structure FilterSelection where
  dataInicio : Date
  dataFim : Date
  setores_sel : List String
  status_sel : List String
deriving Repr

/-- The row predicate of the boolean mask on lines 63-66 of src/dados.py:
`setor.isin(setores_sel) & status.isin(status_sel) & (data >= inicio) & (data <= fim)`. -/
def matchesFilter (sel : FilterSelection) (t : Ticket) : Bool :=
  sel.setores_sel.contains t.setor &&
  sel.status_sel.contains t.status &&
  Date.leB sel.dataInicio t.data &&
  Date.leB t.data sel.dataFim

/-- Function `df_filtrado` (lines 62-67 of src/dados.py): the rows of `df` whose mask
is true, in the original row order. -/
def df_filtrado (df : List Ticket) (sel : FilterSelection) : List Ticket :=
  df.filter (matchesFilter sel)

/-! ### An executable lexicographic order on strings

pandas sorts string keys (in `sorted(...)`, `groupby`, `Series.mode`) by
the Python string comparison, that is lexicographically by code point. The Mathlib
order on `String` is the same order but its decision procedure does not
reduce in the kernel, so we use our own comparator on the character list. -/

/-- Lexicographic comparison of character lists by code point. -/
def charListLe : List Char → List Char → Bool
  | [], _ => true
  | _ :: _, [] => false
  | c :: cs, d :: ds =>
    if c.toNat < d.toNat then true
    else if d.toNat < c.toNat then false
    else charListLe cs ds

/-- Lexicographic comparison of strings by code point (Python string `<=`). -/
def strLe (a b : String) : Bool :=
  charListLe a.data b.data

theorem charListLe_refl : ∀ l : List Char, charListLe l l = true := by
  intro l
  induction l with
  | nil => rfl
  | cons c cs ih => simp [charListLe, ih]

theorem charListLe_total : ∀ a b : List Char,
    charListLe a b = true ∨ charListLe b a = true := by
  intro a
  induction a with
  | nil => intro b; left; rfl
  | cons c cs ih =>
    intro b
    cases b with
    | nil => right; rfl
    | cons d ds =>
      simp only [charListLe]
      rcases Nat.lt_trichotomy c.toNat d.toNat with h | h | h
      · left; simp [h]
      · rcases ih ds with h2 | h2 <;>
          [left; right] <;> simp [h, h2, Nat.lt_irrefl]
      · right; simp [h]

theorem charListLe_trans : ∀ a b c : List Char,
    charListLe a b = true → charListLe b c = true → charListLe a c = true := by
  intro a
  induction a with
  | nil => intro b c _ _; rfl
  | cons x xs ih =>
    intro b c hab hbc
    cases b with
    | nil => simp [charListLe] at hab
    | cons y ys =>
      cases c with
      | nil => simp [charListLe] at hbc
      | cons z zs =>
        simp only [charListLe] at hab hbc ⊢
        by_cases hxy : x.toNat < y.toNat <;> by_cases hyz : y.toNat < z.toNat
        · simp [show x.toNat < z.toNat from Nat.lt_trans hxy hyz]
        · simp only [hyz, if_false] at hbc
          by_cases hzy : z.toNat < y.toNat
          · simp [hzy] at hbc
          · have : x.toNat < z.toNat := by omega
            simp [this]
        · simp only [hxy, if_false] at hab
          by_cases hyx : y.toNat < x.toNat
          · simp [hyx] at hab
          · have : x.toNat < z.toNat := by omega
            simp [this]
        · simp only [hxy, if_false] at hab
          simp only [hyz, if_false] at hbc
          by_cases hyx : y.toNat < x.toNat
          · simp [hyx] at hab
          · by_cases hzy : z.toNat < y.toNat
            · simp [hzy] at hbc
            · have hxz : ¬ x.toNat < z.toNat := by omega
              have hzx : ¬ z.toNat < x.toNat := by omega
              simp only [if_neg hyx] at hab
              simp only [if_neg hzy] at hbc
              simp only [hxz, hzx, if_false]
              exact ih ys zs hab hbc

theorem strLe_refl (a : String) : strLe a a = true :=
  charListLe_refl a.data

theorem strLe_total (a b : String) : strLe a b = true ∨ strLe b a = true :=
  charListLe_total a.data b.data

theorem strLe_trans {a b c : String} :
    strLe a b = true → strLe b c = true → strLe a c = true :=
  charListLe_trans a.data b.data c.data

/-- Relation `strLe` as a decidable relation, for use with `List.insertionSort`. -/
def strLeP (a b : String) : Prop := strLe a b = true

instance : DecidableRel strLeP := fun a b => by
  unfold strLeP; infer_instance

/-- Ascending lexicographic sort of string keys, as performed by
`sorted(...)` (lines 54, 58) and by `groupby` / `Series.mode` on string
keys in pandas. -/
def sortStrings (l : List String) : List String :=
  List.insertionSort strLeP l

/-! ### Metrics Engine (lines 76-82 of src/dados.py) -/

/-- Occurrences of a sector value among the rows of a table (the
frequencies underlying `Series.mode` and `groupby("setor").count()`). -/
def contaSetor (df : List Ticket) (s : String) : Nat :=
  (df.map Ticket.setor).count s

/-- The set of distinct sector values present in a table. -/
def setoresPresentes (df : List Ticket) : List String :=
  (df.map Ticket.setor).dedup

/-- The largest sector frequency in a table. -/
def maxFreq (df : List Ticket) : Nat :=
  ((setoresPresentes df).map (contaSetor df)).foldr max 0

/-- The sector values attaining the largest frequency: the multiset that
`df_filtrado["setor"].mode()` returns (pandas returns them sorted
ascending). -/
def modas (df : List Ticket) : List String :=
  (setoresPresentes df).filter (fun s => contaSetor df s == maxFreq df)

/-- Minimum of two strings in code-point order. -/
def sMin (a b : String) : String := if strLe a b then a else b

/-- Expression `df_filtrado["setor"].mode()[0]` (line 80 of src/dados.py): pandas sorts
the modes ascending, so index 0 is the least tied sector in string order. -/
def setor_top_calc (df : List Ticket) : String :=
  match modas df with
  | [] => "-"
  | m :: ms => ms.foldl sMin m

/-- Expression `df_filtrado["tempo_resolucao"].mean()` (line 77 of src/dados.py). -/
def tempo_medio_calc (df : List Ticket) : ℚ :=
  (df.map fun t => (t.tempo_resolucao : ℚ)).sum / (df.length : ℚ)

/-- Expression `df_filtrado["status"].eq("Resolvido").mean() * 100` (line 78 of
src/dados.py): the fraction of rows with status "Resolvido", as a
percentage. -/
def taxa_resolucao_calc (df : List Ticket) : ℚ :=
  (((df.filter fun t => t.status == "Resolvido").length : ℚ) / (df.length : ℚ)) * 100

/-- The four KPI values of lines 76-82 of src/dados.py. -/
structure Metricas where
  tempo_medio : ℚ
  taxa_resolucao : ℚ
  total_chamados : Nat
  setor_top : String
deriving DecidableEq, Repr

/-- Lines 76-82 of src/dados.py: the four metrics over the filtered subset,
with the neutral defaults `0, 0, 0, "-"` when the subset is empty. -/
def metricas (dff : List Ticket) : Metricas :=
  if dff.isEmpty then ⟨0, 0, 0, "-"⟩
  else ⟨tempo_medio_calc dff, taxa_resolucao_calc dff, dff.length, setor_top_calc dff⟩

/-! ### Aggregation Engine (the four chart inputs) -/

/-- Expression `df_filtrado.groupby("setor")["ID"].count()` (line 101 of src/dados.py):
one row per distinct sector present, keys sorted ascending, with the row
count of each group. -/
def chamados_por_setor (dff : List Ticket) : List (String × Nat) :=
  (sortStrings (setoresPresentes dff)).map fun s => (s, contaSetor dff s)

/-- Occurrences of a status value among the rows of a table. -/
def contaStatus (dff : List Ticket) (s : String) : Nat :=
  (dff.map Ticket.status).count s

/-- The set of distinct status values present in a table. -/
def statusPresentes (dff : List Ticket) : List String :=
  (dff.map Ticket.status).dedup

/-- Expression `df_filtrado["status"].value_counts()` (line 118 of src/dados.py): one
row per distinct status present, ordered by descending count, with each
row count of that status. -/
def status_count (dff : List Ticket) : List (String × Nat) :=
  (List.insertionSort (fun a b => contaStatus dff b ≤ contaStatus dff a)
    (statusPresentes dff)).map fun s => (s, contaStatus dff s)

/-- Expression `d.to_period("M").astype(str)`: the year-month bucket of a date,
rendered as "YYYY-MM" with a zero-padded month. -/
def mesOf (d : Date) : String :=
  toString d.year ++ "-" ++
    (if d.month < 10 then "0" ++ toString d.month else toString d.month)

/-- Lines 155-156 of src/dados.py: bucket the filtered rows by calendar
month of `data` and count rows per bucket, bucket keys sorted ascending. -/
def chamados_por_mes (dff : List Ticket) : List (String × Nat) :=
  (sortStrings ((dff.map fun t => mesOf t.data).dedup)).map
    fun m => (m, (dff.map fun t => mesOf t.data).count m)

/-! ### Export and Dataset Loader

CSV cells are modelled at field-semantics granularity (§6 of the spec asks
for round-trip compatible field semantics, not byte-identical text): a cell
carries the typed value its text denotes, and the type coercion of the loader
(`pd.read_csv` numeric inference plus `pd.to_datetime` on the `data`
column) extracts that value or fails. -/

/-- One CSV cell: an integer, a plain string, or a date. -/
inductive Cell where
  | nat (n : Nat)
  | str (s : String)
  | date (d : Date)
deriving DecidableEq, Repr

/-- The five-column schema of `chamados.csv` (line 18-24 of src/dados.py). -/
def colunasBase : List String :=
  ["ID", "setor", "data", "status", "tempo_resolucao"]

/-- The row of a ticket under the five-column schema. -/
def ticketCells (t : Ticket) : List Cell :=
  [Cell.nat t.id, Cell.str t.setor, Cell.date t.data,
   Cell.str t.status, Cell.nat t.tempo_resolucao]

/-- A filtered row as the monthly chart leaves it (line 155 of
src/dados.py): the five schema cells plus the added `mes` bucket cell. -/
def linhaComMes (t : Ticket) : List Cell :=
  ticketCells t ++ [Cell.str (mesOf t.data)]

/-- Lines 152-179 of src/dados.py in one rendering pass: when the filtered
subset is non-empty, the monthly chart first adds the `mes` column to
`df_filtrado` (line 155), and the download button then serializes that
augmented frame (`df_filtrado.to_csv(index=False)`, line 176). When the
subset is empty no download is offered (line 181). -/
def exportCsv (dff : List Ticket) : Option (List String × List (List Cell)) :=
  if dff.isEmpty then none
  else some (colunasBase ++ ["mes"], dff.map linhaComMes)

/-- The detail table of line 186 of src/dados.py (`st.dataframe(df_filtrado)`):
in the same rendering pass, a non-empty `df_filtrado` already carries the
`mes` column added on line 155; an empty one still has the five schema
columns. -/
def tabelaDetalhada (dff : List Ticket) : List String × List (List Cell) :=
  if dff.isEmpty then (colunasBase, dff.map ticketCells)
  else (colunasBase ++ ["mes"], dff.map linhaComMes)

/-- Numeric coercion of a cell (pandas integer column inference). -/
def cellNat : Cell → Option Nat
  | Cell.nat n => some n
  | _ => none

/-- String reading of a cell. -/
def cellStr : Cell → Option String
  | Cell.str s => some s
  | _ => none

/-- The `pd.to_datetime` coercion of a cell. -/
def cellDate : Cell → Option Date
  | Cell.date d => some d
  | _ => none

/-- Position of a named column in a CSV header row. -/
def findCol (header : List String) (nome : String) : Option Nat :=
  header.findIdx? (fun c => c == nome)

/-- The per-row parse of the Dataset Loader (lines 30-31 of src/dados.py): read
the five schema columns by name from the header, coercing ID and
tempo_resolucao to integers and data to a date; any missing column or
ill-typed cell is a load failure. -/
def loadTicket (header : List String) (row : List Cell) : Option Ticket :=
  match findCol header "ID", findCol header "setor", findCol header "data",
      findCol header "status", findCol header "tempo_resolucao" with
  | some i1, some i2, some i3, some i4, some i5 =>
    match row[i1]?, row[i2]?, row[i3]?, row[i4]?, row[i5]? with
    | some c1, some c2, some c3, some c4, some c5 =>
      match cellNat c1, cellStr c2, cellDate c3, cellStr c4, cellNat c5 with
      | some i, some se, some d, some st, some tr => some ⟨i, se, d, st, tr⟩
      | _, _, _, _, _ => none
    | _, _, _, _, _ => none
  | _, _, _, _, _ => none

/-- Parse every data row of a CSV in order; fail fast on the first bad row
(no partial load, per §7 of the spec). -/
def loadRows (header : List String) : List (List Cell) → Option (List Ticket)
  | [] => some []
  | r :: rs =>
    match loadTicket header r, loadRows header rs with
    | some t, some ts => some (t :: ts)
    | _, _ => none

/-- The Dataset Loader on an in-memory CSV (header row plus data rows):
the loaded table keeps the column list of the file and its row order. -/
def loadTable (csv : List String × List (List Cell)) :
    Option (List String × List Ticket) :=
  match loadRows csv.1 csv.2 with
  | some ts => some (csv.1, ts)
  | none => none

/-! ### The default filter selection of the sidebar (lines 44-59 of src/dados.py) -/

/-- Chronologically earlier of two dates. -/
def dMin (a b : Date) : Date := if Date.leB a b then a else b

/-- Chronologically later of two dates. -/
def dMax (a b : Date) : Date := if Date.leB a b then b else a

/-- Expression `df["data"].min()` (line 44 of src/dados.py); the script only reaches
this point with a non-empty table, so the `[]` value is never used. -/
def data_min : List Ticket → Date
  | [] => ⟨0, 0, 0⟩
  | t :: ts => ts.foldl (fun acc u => dMin acc u.data) t.data

/-- Expression `df["data"].max()` (line 45 of src/dados.py). -/
def data_max : List Ticket → Date
  | [] => ⟨0, 0, 0⟩
  | t :: ts => ts.foldl (fun acc u => dMax acc u.data) t.data

/-- The default values of the widgets (lines 44-59 of src/dados.py): period
`[data_min, data_max]`, and both multiselects defaulting to the full sorted
list of distinct values present in the table. -/
def selecaoPadrao (df : List Ticket) : FilterSelection :=
  ⟨data_min df, data_max df,
    sortStrings (setoresPresentes df),
    sortStrings (statusPresentes df)⟩

/-! ### Concrete tables and selections used as witnesses and counterexamples -/

def dfC1 : List Ticket := [⟨1, "TI", ⟨2024, 1, 5⟩, "Resolvido", 10⟩]

def selC1 : FilterSelection :=
  ⟨⟨2024, 1, 1⟩, ⟨2024, 12, 31⟩, ["TI"], ["Resolvido"]⟩

def tC1 : Ticket := ⟨1, "TI", ⟨2024, 1, 5⟩, "Resolvido", 10⟩

def dfC3 : List Ticket := [⟨1, "TI", ⟨2024, 1, 5⟩, "Resolvido", 10⟩]

def selC3 : FilterSelection :=
  ⟨⟨2024, 1, 1⟩, ⟨2024, 12, 31⟩, [], ["Resolvido"]⟩

def dfC6 : List Ticket :=
  [⟨1, "TI", ⟨2024, 1, 5⟩, "Resolvido", 10⟩,
   ⟨2, "TI", ⟨2024, 2, 10⟩, "Aberto", 5⟩]

def selC6 : FilterSelection :=
  ⟨⟨2024, 1, 1⟩, ⟨2024, 12, 31⟩, ["TI"], ["Aberto", "Resolvido"]⟩

def dfC2 : List Ticket :=
  [⟨1, "TI", ⟨2024, 1, 5⟩, "Resolvido", 10⟩,
   ⟨2, "TI", ⟨2024, 2, 10⟩, "Aberto", 5⟩,
   ⟨3, "RH", ⟨2024, 1, 20⟩, "Resolvido", 20⟩]

def selC2 : FilterSelection :=
  ⟨⟨2024, 1, 1⟩, ⟨2024, 12, 31⟩, ["TI"],
    ["Aberto", "Em andamento", "Resolvido"]⟩

/-- The modal sector as the wording of C5 describes it: the tied
maximally-frequent sector that occurs first in the row (insertion)
order of the subset. Modelled from the words of the claim, for comparison with
`setor_top_calc`. -/
def setorTopSpec (dff : List Ticket) : String :=
  match (dff.map Ticket.setor).filter
      (fun s => contaSetor dff s == maxFreq dff) with
  | [] => "-"
  | s :: _ => s

def dfC5 : List Ticket :=
  [⟨1, "TI", ⟨2024, 3, 1⟩, "Aberto", 5⟩,
   ⟨2, "RH", ⟨2024, 3, 2⟩, "Aberto", 7⟩]

def selC5 : FilterSelection :=
  ⟨⟨2024, 1, 1⟩, ⟨2024, 12, 31⟩, ["RH", "TI"], ["Aberto"]⟩

def dfC4 : List Ticket := [⟨7, "TI", ⟨2024, 5, 2⟩, "Aberto", 3⟩]

def selC4 : FilterSelection :=
  ⟨⟨2024, 1, 1⟩, ⟨2024, 12, 31⟩, ["TI"], ["Aberto"]⟩

def dfC9 : List Ticket := [⟨4, "RH", ⟨2024, 7, 9⟩, "Resolvido", 12⟩]

def selC9 : FilterSelection :=
  ⟨⟨2024, 1, 1⟩, ⟨2024, 12, 31⟩, ["RH"], ["Resolvido"]⟩

/-! ### Order lemmas for dates and the min/max folds -/

theorem Date.leB_refl (a : Date) : Date.leB a a = true := by
  simp [Date.leB]

theorem Date.leB_total (a b : Date) :
    Date.leB a b = true ∨ Date.leB b a = true := by
  simp only [Date.leB, decide_eq_true_eq]
  omega

theorem Date.leB_trans {a b c : Date} (hab : Date.leB a b = true)
    (hbc : Date.leB b c = true) : Date.leB a c = true := by
  simp only [Date.leB, decide_eq_true_eq] at hab hbc ⊢
  omega

theorem dMin_le_left (a b : Date) : Date.leB (dMin a b) a = true := by
  unfold dMin
  by_cases h : Date.leB a b = true
  · rw [if_pos h]; exact Date.leB_refl a
  · rw [if_neg h]
    rcases Date.leB_total a b with h2 | h2
    · exact absurd h2 h
    · exact h2

theorem dMin_le_right (a b : Date) : Date.leB (dMin a b) b = true := by
  unfold dMin
  by_cases h : Date.leB a b = true
  · rw [if_pos h]; exact h
  · rw [if_neg h]; exact Date.leB_refl b

theorem dMax_ge_left (a b : Date) : Date.leB a (dMax a b) = true := by
  unfold dMax
  by_cases h : Date.leB a b = true
  · rw [if_pos h]; exact h
  · rw [if_neg h]; exact Date.leB_refl a

theorem dMax_ge_right (a b : Date) : Date.leB b (dMax a b) = true := by
  unfold dMax
  by_cases h : Date.leB a b = true
  · rw [if_pos h]; exact Date.leB_refl b
  · rw [if_neg h]
    rcases Date.leB_total a b with h2 | h2
    · exact absurd h2 h
    · exact h2

theorem foldl_dMin_le (l : List Ticket) :
    ∀ a : Date,
      Date.leB (l.foldl (fun acc u => dMin acc u.data) a) a = true ∧
      ∀ t ∈ l, Date.leB (l.foldl (fun acc u => dMin acc u.data) a) t.data = true := by
  induction l with
  | nil => intro a; exact ⟨Date.leB_refl a, by simp⟩
  | cons u us ih =>
    intro a
    simp only [List.foldl_cons]
    have h := ih (dMin a u.data)
    refine ⟨Date.leB_trans h.1 (dMin_le_left a u.data), ?_⟩
    intro t ht
    rcases List.mem_cons.mp ht with rfl | ht2
    · exact Date.leB_trans h.1 (dMin_le_right a t.data)
    · exact h.2 t ht2

theorem foldl_dMax_ge (l : List Ticket) :
    ∀ a : Date,
      Date.leB a (l.foldl (fun acc u => dMax acc u.data) a) = true ∧
      ∀ t ∈ l, Date.leB t.data (l.foldl (fun acc u => dMax acc u.data) a) = true := by
  induction l with
  | nil => intro a; exact ⟨Date.leB_refl a, by simp⟩
  | cons u us ih =>
    intro a
    simp only [List.foldl_cons]
    have h := ih (dMax a u.data)
    refine ⟨Date.leB_trans (dMax_ge_left a u.data) h.1, ?_⟩
    intro t ht
    rcases List.mem_cons.mp ht with rfl | ht2
    · exact Date.leB_trans (dMax_ge_right a t.data) h.1
    · exact h.2 t ht2

theorem data_min_le {df : List Ticket} {t : Ticket} (ht : t ∈ df) :
    Date.leB (data_min df) t.data = true := by
  cases df with
  | nil => cases ht
  | cons u us =>
    rcases List.mem_cons.mp ht with rfl | h2
    · exact (foldl_dMin_le us t.data).1
    · exact (foldl_dMin_le us u.data).2 t h2

theorem data_max_ge {df : List Ticket} {t : Ticket} (ht : t ∈ df) :
    Date.leB t.data (data_max df) = true := by
  cases df with
  | nil => cases ht
  | cons u us =>
    rcases List.mem_cons.mp ht with rfl | h2
    · exact (foldl_dMax_ge us t.data).1
    · exact (foldl_dMax_ge us u.data).2 t h2

/-! ### Claims about the Filter Engine -/

/-- C1: a row of the table is in `df_filtrado` iff it is a row of the table
whose sector is among the selected sectors, whose status is among the
selected statuses, and whose date lies between the range start and the
range end, both ends inclusive; hence every identifier of the filtered
subset is an identifier of the loaded table. -/
theorem C1_filtro_caracterizacao (df : List Ticket) (sel : FilterSelection) :
    (∀ t : Ticket, t ∈ df_filtrado df sel ↔
      (t ∈ df ∧ t.setor ∈ sel.setores_sel ∧ t.status ∈ sel.status_sel ∧
        Date.leB sel.dataInicio t.data = true ∧
        Date.leB t.data sel.dataFim = true)) ∧
    ∀ t ∈ df_filtrado df sel, t.id ∈ df.map Ticket.id := by
  constructor
  · intro t
    simp [df_filtrado, List.mem_filter, matchesFilter, Bool.and_eq_true,
      List.elem_iff, and_assoc]
  · intro t ht
    exact List.mem_map_of_mem Ticket.id (List.mem_of_mem_filter ht)

/-- C1 witness: the characterization instantiated on a one-row table. -/
theorem C1_witness : tC1 ∈ df_filtrado dfC1 selC1 :=
  ((C1_filtro_caracterizacao dfC1 selC1).1 tC1).mpr
    ⟨by decide, by decide, by decide, by decide, by decide⟩

/-- C3: whenever the filtered subset is empty, the four scalar metrics are
still defined and equal the neutral defaults: mean resolution time 0,
resolution rate 0, total 0, and the placeholder label "-" for the modal
sector (lines 81-82 of src/dados.py). -/
theorem C3_metricas_vazio (df : List Ticket) (sel : FilterSelection)
    (h : df_filtrado df sel = []) :
    metricas (df_filtrado df sel) = ⟨0, 0, 0, "-"⟩ := by
  rw [h]; rfl

/-- C3 witness: an empty sector selection empties the subset and the
metrics degrade to the neutral defaults. -/
theorem C3_witness :
    df_filtrado dfC3 selC3 = [] ∧
    metricas (df_filtrado dfC3 selC3) = ⟨0, 0, 0, "-"⟩ :=
  ⟨by decide, C3_metricas_vazio dfC3 selC3 (by decide)⟩

/-- C8: filtering is idempotent — re-filtering an already-filtered subset
with the same selection returns that subset unchanged, same rows in the
same order. -/
theorem C8_filtragem_idempotente (df : List Ticket) (sel : FilterSelection) :
    df_filtrado (df_filtrado df sel) sel = df_filtrado df sel := by
  simp [df_filtrado, List.filter_filter]

/-- C10: with the default sidebar selection — all distinct sectors, all
distinct statuses, and the period `[data_min, data_max]` of the table — the
filtered subset is the whole loaded table, row for row in the original
order. -/
theorem C10_selecao_padrao_identidade (df : List Ticket) :
    df_filtrado df (selecaoPadrao df) = df := by
  rw [df_filtrado, List.filter_eq_self]
  intro t ht
  simp only [matchesFilter, selecaoPadrao, Bool.and_eq_true, List.elem_iff]
  refine ⟨⟨⟨?_, ?_⟩, ?_⟩, ?_⟩
  · rw [sortStrings, List.mem_insertionSort, setoresPresentes, List.mem_dedup]
    exact List.mem_map_of_mem Ticket.setor ht
  · rw [sortStrings, List.mem_insertionSort, statusPresentes, List.mem_dedup]
    exact List.mem_map_of_mem Ticket.status ht
  · exact data_min_le ht
  · exact data_max_ge ht

/-! ### Claims about the Aggregation and Metrics Engines -/

theorem sum_counts_over_sorted_dedup (l : List String)
    (r : String → String → Prop) [DecidableRel r] :
    (((List.insertionSort r l.dedup).map fun s => (s, l.count s)).map
      Prod.snd).sum = l.length := by
  rw [List.map_map]
  have hperm :
      List.Perm
        ((List.insertionSort r l.dedup).map (Prod.snd ∘ fun s => (s, l.count s)))
        (l.dedup.map (Prod.snd ∘ fun s => (s, l.count s))) :=
    (List.perm_insertionSort r l.dedup).map _
  rw [hperm.sum_eq]
  exact List.sum_map_count_dedup_eq_length l

/-- C7: the by-sector counts sum to the total row count of the filtered subset,
and so do the by-status counts. -/
theorem C7_somas_contagens (df : List Ticket) (sel : FilterSelection) :
    ((chamados_por_setor (df_filtrado df sel)).map Prod.snd).sum =
        (df_filtrado df sel).length ∧
    ((status_count (df_filtrado df sel)).map Prod.snd).sum =
        (df_filtrado df sel).length := by
  constructor
  · have h := sum_counts_over_sorted_dedup
      ((df_filtrado df sel).map Ticket.setor) strLeP
    simp only [chamados_por_setor, sortStrings, setoresPresentes, contaSetor]
    rw [h, List.length_map]
  · have h := sum_counts_over_sorted_dedup
      ((df_filtrado df sel).map Ticket.status)
      (fun a b => contaStatus (df_filtrado df sel) b ≤
        contaStatus (df_filtrado df sel) a)
    simp only [status_count, statusPresentes, contaStatus] at h ⊢
    rw [h, List.length_map]

/-- C6: on a non-empty filtered subset the resolution-rate metric is
`100 * (count of status "Resolvido") / total`, lies between 0 and 100, and
multiplied by the total and divided by 100 gives back exactly the count of
"Resolvido" rows. -/
theorem C6_taxa_resolucao (df : List Ticket) (sel : FilterSelection)
    (h : df_filtrado df sel ≠ []) :
    (metricas (df_filtrado df sel)).taxa_resolucao =
        100 * (((df_filtrado df sel).filter fun t =>
            t.status == "Resolvido").length : ℚ) /
          ((df_filtrado df sel).length : ℚ) ∧
    0 ≤ (metricas (df_filtrado df sel)).taxa_resolucao ∧
    (metricas (df_filtrado df sel)).taxa_resolucao ≤ 100 ∧
    (metricas (df_filtrado df sel)).taxa_resolucao *
        ((metricas (df_filtrado df sel)).total_chamados : ℚ) / 100 =
      (((df_filtrado df sel).filter fun t =>
          t.status == "Resolvido").length : ℚ) := by
  obtain ⟨x, xs, hd⟩ := List.exists_cons_of_ne_nil h
  rw [hd]
  have hc : ((x :: xs).filter fun t => t.status == "Resolvido").length ≤
      (x :: xs).length := List.length_filter_le _ _
  set c : Nat := ((x :: xs).filter fun t => t.status == "Resolvido").length with hcdef
  have hn : (0 : ℚ) < ((x :: xs).length : ℚ) := by
    simp [List.length_cons]
    positivity
  have hn0 : ((x :: xs).length : ℚ) ≠ 0 := ne_of_gt hn
  simp only [metricas, List.isEmpty_cons, Bool.false_eq_true, if_false,
    taxa_resolucao_calc, ← hcdef]
  have hcle : (c : ℚ) ≤ ((x :: xs).length : ℚ) := by exact_mod_cast hc
  refine ⟨by field_simp; ring, by positivity, ?_, by field_simp⟩
  calc (c : ℚ) / ((x :: xs).length : ℚ) * 100
      ≤ 1 * 100 := by
        have : (c : ℚ) / ((x :: xs).length : ℚ) ≤ 1 :=
          (div_le_one hn).mpr hcle
        nlinarith
    _ = 100 := one_mul 100

/-- C6 witness: the rate identities instantiated on a concrete two-row
subset. -/
theorem C6_witness :
    df_filtrado dfC6 selC6 ≠ [] ∧
    0 ≤ (metricas (df_filtrado dfC6 selC6)).taxa_resolucao ∧
    (metricas (df_filtrado dfC6 selC6)).taxa_resolucao ≤ 100 :=
  ⟨by decide, (C6_taxa_resolucao dfC6 selC6 (by decide)).2.1,
    (C6_taxa_resolucao dfC6 selC6 (by decide)).2.2.1⟩

/-- C2: on the concrete 3-record table of the spec, filtering to sector "TI",
all statuses, and a date range covering all of 2024 keeps exactly the rows
with ids 1 and 2; the metrics are mean 7.5, rate 50.0 %, total 2, modal
sector "TI"; the monthly counts are 2024-01 ↦ 1 and 2024-02 ↦ 1. (The
English status names "Resolved" and "Open" in the spec denote the values
"Resolvido" and "Aberto" in the code.) -/
theorem C2_cenario_concreto :
    df_filtrado dfC2 selC2 =
      [⟨1, "TI", ⟨2024, 1, 5⟩, "Resolvido", 10⟩,
       ⟨2, "TI", ⟨2024, 2, 10⟩, "Aberto", 5⟩] ∧
    metricas (df_filtrado dfC2 selC2) = ⟨15 / 2, 50, 2, "TI"⟩ ∧
    chamados_por_mes (df_filtrado dfC2 selC2) =
      [("2024-01", 1), ("2024-02", 1)] := by
  refine ⟨by decide, ?_, by decide⟩
  rw [show df_filtrado dfC2 selC2 =
      [⟨1, "TI", ⟨2024, 1, 5⟩, "Resolvido", 10⟩,
       ⟨2, "TI", ⟨2024, 2, 10⟩, "Aberto", 5⟩] from by decide]
  have h2 : ([⟨1, "TI", ⟨2024, 1, 5⟩, "Resolvido", 10⟩,
      (⟨2, "TI", ⟨2024, 2, 10⟩, "Aberto", 5⟩ : Ticket)].filter fun t =>
        t.status == "Resolvido") =
      [⟨1, "TI", ⟨2024, 1, 5⟩, "Resolvido", 10⟩] := by decide
  have h3 : setor_top_calc [⟨1, "TI", ⟨2024, 1, 5⟩, "Resolvido", 10⟩,
      (⟨2, "TI", ⟨2024, 2, 10⟩, "Aberto", 5⟩ : Ticket)] = "TI" := by decide
  simp only [metricas, List.isEmpty_cons, Bool.false_eq_true, if_false,
    tempo_medio_calc, taxa_resolucao_calc, h2, h3, List.length_cons,
    List.length_nil]
  norm_num [Metricas.mk.injEq]

/-! ### The modal sector -/

theorem sMin_le_left (a b : String) : strLe (sMin a b) a = true := by
  unfold sMin
  by_cases h : strLe a b = true
  · rw [if_pos h]; exact strLe_refl a
  · rw [if_neg h]
    rcases strLe_total a b with h2 | h2
    · exact absurd h2 h
    · exact h2

theorem sMin_le_right (a b : String) : strLe (sMin a b) b = true := by
  unfold sMin
  by_cases h : strLe a b = true
  · rw [if_pos h]; exact h
  · rw [if_neg h]; exact strLe_refl b

theorem sMin_choice (a b : String) : sMin a b = a ∨ sMin a b = b := by
  unfold sMin
  by_cases h : strLe a b = true
  · left; rw [if_pos h]
  · right; rw [if_neg h]

theorem foldl_sMin_le (l : List String) :
    ∀ a : String, strLe (l.foldl sMin a) a = true ∧
      ∀ s ∈ l, strLe (l.foldl sMin a) s = true := by
  induction l with
  | nil => intro a; exact ⟨strLe_refl a, by simp⟩
  | cons x xs ih =>
    intro a
    simp only [List.foldl_cons]
    have h := ih (sMin a x)
    refine ⟨strLe_trans h.1 (sMin_le_left a x), ?_⟩
    intro s hs
    rcases List.mem_cons.mp hs with rfl | hs2
    · exact strLe_trans h.1 (sMin_le_right a s)
    · exact h.2 s hs2

theorem foldl_sMin_mem (l : List String) :
    ∀ a : String, l.foldl sMin a = a ∨ l.foldl sMin a ∈ l := by
  induction l with
  | nil => intro a; left; rfl
  | cons x xs ih =>
    intro a
    simp only [List.foldl_cons]
    rcases ih (sMin a x) with h | h
    · rcases sMin_choice a x with h2 | h2
      · left; rw [h, h2]
      · right; rw [h, h2]; exact List.mem_cons_self x xs
    · right; exact List.mem_cons_of_mem x h

theorem foldr_max_mem : ∀ l : List Nat, l ≠ [] → l.foldr max 0 ∈ l := by
  intro l
  induction l with
  | nil => intro h; exact absurd rfl h
  | cons a as ih =>
    intro _
    cases as with
    | nil => simp
    | cons b bs =>
      simp only [List.foldr_cons]
      rcases max_choice a ((b :: bs).foldr max 0) with h | h
      · rw [List.foldr_cons] at h
        rw [h]
        exact List.mem_cons_self _ _
      · rw [List.foldr_cons] at h
        rw [h]
        exact List.mem_cons_of_mem _ (ih (List.cons_ne_nil b bs))

theorem mem_modas {df : List Ticket} {s : String} :
    s ∈ modas df ↔ s ∈ setoresPresentes df ∧ contaSetor df s = maxFreq df := by
  simp [modas, List.mem_filter]

theorem modas_ne_nil {df : List Ticket} (h : df ≠ []) : modas df ≠ [] := by
  have hpres : setoresPresentes df ≠ [] := by
    cases df with
    | nil => exact absurd rfl h
    | cons x xs =>
      intro hc
      rw [setoresPresentes, List.map_cons, List.dedup_eq_nil] at hc
      exact List.cons_ne_nil _ _ hc
  obtain ⟨p, ps, hp⟩ := List.exists_cons_of_ne_nil hpres
  have hmm : maxFreq df ∈ (setoresPresentes df).map (contaSetor df) := by
    apply foldr_max_mem
    rw [hp, List.map_cons]
    exact List.cons_ne_nil _ _
  obtain ⟨s, hs, hcount⟩ := List.mem_map.mp hmm
  intro hm
  have hmem : s ∈ modas df := mem_modas.mpr ⟨hs, hcount⟩
  rw [hm] at hmem
  cases hmem

/-- The behaviour of `mode()[0]` on any non-empty table: the result is a
sector of the table, it attains the maximal frequency, and it is below
every maximally-frequent sector in code-point order (because pandas
returns the modes sorted ascending). -/
theorem setor_top_spec_geral (dff : List Ticket) (h : dff ≠ []) :
    setor_top_calc dff ∈ dff.map Ticket.setor ∧
    contaSetor dff (setor_top_calc dff) = maxFreq dff ∧
    ∀ s ∈ dff.map Ticket.setor, contaSetor dff s = maxFreq dff →
      strLe (setor_top_calc dff) s = true := by
  obtain ⟨m, ms, hm⟩ := List.exists_cons_of_ne_nil (modas_ne_nil h)
  have htop : setor_top_calc dff = ms.foldl sMin m := by
    unfold setor_top_calc
    rw [hm]
  have hmem_modas : ms.foldl sMin m ∈ modas dff := by
    rw [hm]
    rcases foldl_sMin_mem ms m with h2 | h2
    · rw [h2]; exact List.mem_cons_self m ms
    · exact List.mem_cons_of_mem m h2
  have hmm := mem_modas.mp hmem_modas
  refine ⟨?_, ?_, ?_⟩
  · rw [htop]
    have h3 : ms.foldl sMin m ∈ setoresPresentes dff := hmm.1
    rw [setoresPresentes, List.mem_dedup] at h3
    exact h3
  · rw [htop]; exact hmm.2
  · intro s hs hcount
    rw [htop]
    have hsmodas : s ∈ modas dff := by
      apply mem_modas.mpr
      refine ⟨?_, hcount⟩
      rw [setoresPresentes, List.mem_dedup]
      exact hs
    rw [hm] at hsmodas
    rcases List.mem_cons.mp hsmodas with rfl | h2
    · exact (foldl_sMin_le ms s).1
    · exact (foldl_sMin_le ms m).2 s h2

theorem metricas_setor_top {dff : List Ticket} (h : dff ≠ []) :
    (metricas dff).setor_top = setor_top_calc dff := by
  obtain ⟨x, xs, hd⟩ := List.exists_cons_of_ne_nil h
  rw [hd]
  simp [metricas]

/-- C5 counterexample: on a two-row subset whose sectors "TI" then "RH" are
tied, the modal sector computed by the code is "RH" (the lexicographically least tied
value, since pandas sorts the modes ascending), while the first tied sector
in insertion order is "TI" — so the tie-break description of the claim is
false. -/
theorem C5_counterexample :
    (metricas (df_filtrado dfC5 selC5)).setor_top = "RH" ∧
    setorTopSpec (df_filtrado dfC5 selC5) = "TI" ∧
    (metricas (df_filtrado dfC5 selC5)).setor_top ≠
      setorTopSpec (df_filtrado dfC5 selC5) := by
  refine ⟨by decide, by decide, by decide⟩

/-- C5 (amended): on every non-empty filtered subset the modal-sector
metric is a sector of the subset attaining the maximal frequency, and on
ties it is the least tied sector in ascending string (code-point) order —
not the first in insertion order. -/
theorem C5_setor_top_moda (df : List Ticket) (sel : FilterSelection)
    (h : df_filtrado df sel ≠ []) :
    (metricas (df_filtrado df sel)).setor_top ∈
        (df_filtrado df sel).map Ticket.setor ∧
    contaSetor (df_filtrado df sel)
        ((metricas (df_filtrado df sel)).setor_top) =
      maxFreq (df_filtrado df sel) ∧
    ∀ s ∈ (df_filtrado df sel).map Ticket.setor,
      contaSetor (df_filtrado df sel) s = maxFreq (df_filtrado df sel) →
        strLe ((metricas (df_filtrado df sel)).setor_top) s = true := by
  rw [metricas_setor_top h]
  exact setor_top_spec_geral _ h

/-- C5 witness: the amended statement instantiated on the tied two-row
subset. -/
theorem C5_witness :
    df_filtrado dfC5 selC5 ≠ [] ∧
    (metricas (df_filtrado dfC5 selC5)).setor_top ∈
      (df_filtrado dfC5 selC5).map Ticket.setor :=
  ⟨by decide, (C5_setor_top_moda dfC5 selC5 (by decide)).1⟩

/-! ### Export, detail table and the Dataset Loader round trip -/

theorem loadTicket_linhaComMes (t : Ticket) :
    loadTicket (colunasBase ++ ["mes"]) (linhaComMes t) = some t := rfl

theorem loadRows_linhaComMes (l : List Ticket) :
    loadRows (colunasBase ++ ["mes"]) (l.map linhaComMes) = some l := by
  induction l with
  | nil => rfl
  | cons t ts ih =>
    simp only [List.map_cons, loadRows, loadTicket_linhaComMes, ih]

/-- C4 counterexample: exporting a concrete non-empty filtered subset and
re-loading it does not give the five-column schema back — the reloaded
reloaded column list is not `colunasBase`, because the export carries the
extra `mes` column added on line 155 of src/dados.py before the download
button serializes `df_filtrado` on line 176. -/
theorem C4_counterexample :
    df_filtrado dfC4 selC4 ≠ [] ∧
    Option.map Prod.fst ((exportCsv (df_filtrado dfC4 selC4)).bind loadTable) ≠
      some colunasBase := by
  refine ⟨by decide, by decide⟩

/-- C4 (amended): exporting a non-empty filtered subset and re-loading it
through the Dataset Loader succeeds and yields the same record set —
field-for-field equal across the five schema fields, in the same row
order — but with one extra column, `mes`, appended after the five schema
columns. -/
theorem C4_ida_e_volta (df : List Ticket) (sel : FilterSelection)
    (h : df_filtrado df sel ≠ []) :
    (exportCsv (df_filtrado df sel)).bind loadTable =
      some (colunasBase ++ ["mes"], df_filtrado df sel) := by
  obtain ⟨x, xs, hd⟩ := List.exists_cons_of_ne_nil h
  rw [hd]
  simp only [exportCsv, List.isEmpty_cons, Bool.false_eq_true, if_false,
    Option.bind, loadTable, loadRows_linhaComMes]

/-- C4 witness: the amended round trip instantiated on a one-row subset. -/
theorem C4_witness :
    df_filtrado dfC4 selC4 ≠ [] ∧
    (exportCsv (df_filtrado dfC4 selC4)).bind loadTable =
      some (colunasBase ++ ["mes"], df_filtrado dfC4 selC4) :=
  ⟨by decide, C4_ida_e_volta dfC4 selC4 (by decide)⟩

/-- C9: after the monthly view runs on a non-empty filtered subset, the
subset carries the sixth column `mes` — the year-month bucket of the `data`
field — beyond the five schema columns, and the very same six-column frame
is what the export serializer and the detail-table display receive in that
rendering pass. -/
theorem C9_coluna_mes (df : List Ticket) (sel : FilterSelection)
    (h : df_filtrado df sel ≠ []) :
    tabelaDetalhada (df_filtrado df sel) =
      (colunasBase ++ ["mes"],
        (df_filtrado df sel).map fun t =>
          ticketCells t ++ [Cell.str (mesOf t.data)]) ∧
    exportCsv (df_filtrado df sel) =
      some (tabelaDetalhada (df_filtrado df sel)) ∧
    "mes" ∈ (tabelaDetalhada (df_filtrado df sel)).1 ∧
    "mes" ∉ colunasBase := by
  obtain ⟨x, xs, hd⟩ := List.exists_cons_of_ne_nil h
  rw [hd]
  refine ⟨?_, ?_, ?_, by decide⟩
  · simp [tabelaDetalhada, linhaComMes]
  · simp [tabelaDetalhada, exportCsv]
  · simp [tabelaDetalhada]

/-- C9 witness: the frame effect instantiated on a one-row subset. -/
theorem C9_witness :
    df_filtrado dfC9 selC9 ≠ [] ∧
    "mes" ∈ (tabelaDetalhada (df_filtrado dfC9 selC9)).1 :=
  ⟨by decide, (C9_coluna_mes dfC9 selC9 (by decide)).2.2.1⟩

end Chamados
